import Mathlib

/-!
Shallow embedding of the posture classification and dwell-time persistence
engine of src/script.js (the `PoseDetector` class).  Coordinates and angles
are modelled over the reals; visibility confidences over the rationals
(so that the visibility gate is decidable); timestamps in milliseconds
over the integers, supplied by the caller in place of the `Date.now`
calls of the source.  DOM side effects are modelled as fields of the
engine state (timer display) and of the per-frame status record
(title, subtitle, displayed angle, alert-raise signal).
-/

namespace Situp

/-- Keypoint, as delivered by the pose source: a normalized position and an
optional visibility confidence (src/script.js, MediaPipe landmark shape). -/
structure Keypoint where
  x : ℝ
  y : ℝ
  visibility : Option ℚ

/-- Landmark array access `landmarks[i]` (src/script.js lines 220-223).
A missing index (out of range) and a null entry both come out as `none`. -/
def getLandmark (landmarks : List (Option Keypoint)) (i : ℕ) : Option Keypoint :=
  landmarks.getD i none

/-- Effective visibility `landmark.visibility || 1` (src/script.js line 228).
JavaScript `||` replaces the falsy values `undefined` and `0` by the
default `1`; any other number is kept. -/
def effVisibility (k : Keypoint) : ℚ :=
  match k.visibility with
  | none => 1
  | some v => if v = 0 then 1 else v

/-- Check of one required landmark inside the `every` of lines 227-229:
the landmark is present and its effective visibility exceeds 0.6. -/
def visOK : Option Keypoint → Bool
  | none => false
  | some k => decide (effVisibility k > 6/10)

/-- Visibility gate `hasGoodVisibility` (src/script.js lines 226-229),
the `every` over the four required landmarks written as a conjunction. -/
def hasGoodVisibility (landmarks : List (Option Keypoint)) : Bool :=
  visOK (getLandmark landmarks 7) && visOK (getLandmark landmarks 8) &&
    visOK (getLandmark landmarks 11) && visOK (getLandmark landmarks 12)

/-- Threshold record `this.postureThresholds` (src/script.js lines 33-37). -/
structure Thresholds where
  perfect : ℝ
  good : ℝ
  warning : ℝ

/-- The threshold values of src/script.js lines 33-37. -/
def postureThresholds : Thresholds := { perfect := 180, good := 168, warning := 160 }

/-- Dynamic property access on the thresholds object, total with `none` for a
property that the object does not declare (JavaScript yields `undefined`).
Used to model the access `this.postureThresholds.fair` at line 431. -/
def thresholdsLookup (t : Thresholds) (field : String) : Option ℝ :=
  if field = "perfect" then some t.perfect
  else if field = "good" then some t.good
  else if field = "warning" then some t.warning
  else none

/-- Dwell threshold `this.warningDurationThreshold` in milliseconds
(src/script.js line 43). -/
def warningDurationThreshold : ℤ := 10000

/-- Mutable engine state: the posture fields of the `PoseDetector` instance
(src/script.js lines 38-45) together with the pieces of DOM state the core
drives (timer visibility, timer label, timer fill). -/
structure PostureState where
  currentNeckAngle : ℝ
  poorPostureStartTime : Option ℤ
  poorPostureDuration : ℤ
  alertShown : Bool
  alertTimeoutPending : Bool
  timerVisible : Bool
  timerSeconds : ℤ
  timerProgress : ℚ

/-- State at construction time: angle 180, no poor streak, no alert, timer
hidden (src/script.js lines 38-45; the timer element starts hidden). -/
noncomputable def initialState : PostureState :=
  { currentNeckAngle := 180
    poorPostureStartTime := none
    poorPostureDuration := 0
    alertShown := false
    alertTimeoutPending := false
    timerVisible := false
    timerSeconds := 0
    timerProgress := 0 }

/-- Angle argument handed to `updatePostureStatus` (src/script.js line 399):
either a number, or the literal string placeholder passed on line 232
for frames that fail the visibility gate (rendered as NaN by the
`Math.round` of line 401). -/
inductive AngleArg where
  | num : ℝ → AngleArg
  | placeholder : AngleArg

/-- Status emitted for one processed frame: the arguments of
`updatePostureStatus` plus whether an alert-raise signal (banner display
and audio playback, src/script.js lines 422-426) fired on this frame. -/
structure StatusRecord where
  quality : String
  angleArg : AngleArg
  title : String
  subtitle : String
  alertRaised : Bool

/-- JavaScript `Math.round`: half-up rounding, `floor (x + 1/2)`. -/
noncomputable def jsRound (x : ℝ) : ℤ := ⌊x + 1/2⌋

/-- JavaScript `Math.atan2 y x` over the reals (signed zeros of IEEE
floats are not distinguishable here; both map to `0`). -/
noncomputable def atan2 (y x : ℝ) : ℝ :=
  if 0 < x then Real.arctan (y / x)
  else if x < 0 then
    (if 0 ≤ y then Real.arctan (y / x) + Real.pi else Real.arctan (y / x) - Real.pi)
  else
    (if 0 < y then Real.pi / 2 else if y < 0 then -(Real.pi / 2) else 0)

/-- Neck angle from the averaged ear and shoulder points
(src/script.js lines 248-256): `deltaX = avgEar.x - avgShoulder.x`,
`deltaY = avgShoulder.y - avgEar.y`, raw angle `atan2 |deltaX| deltaY`
converted to degrees, result `180 - |raw|`. -/
noncomputable def neckAngleFrom (avgEar avgShoulder : ℝ × ℝ) : ℝ :=
  180 - |atan2 |avgEar.1 - avgShoulder.1| (avgShoulder.2 - avgEar.2) * (180 / Real.pi)|

/-- Averaged ear position (src/script.js lines 238-241). Only evaluated on
frames that passed the visibility gate, where both landmarks are present;
the default keypoint is never reached on that path. -/
noncomputable def avgEarOf (landmarks : List (Option Keypoint)) : ℝ × ℝ :=
  let le := (getLandmark landmarks 7).getD ⟨0, 0, none⟩
  let re := (getLandmark landmarks 8).getD ⟨0, 0, none⟩
  ((le.x + re.x) / 2, (le.y + re.y) / 2)

/-- Averaged shoulder position (src/script.js lines 243-246). -/
noncomputable def avgShoulderOf (landmarks : List (Option Keypoint)) : ℝ × ℝ :=
  let ls := (getLandmark landmarks 11).getD ⟨0, 0, none⟩
  let rs := (getLandmark landmarks 12).getD ⟨0, 0, none⟩
  ((ls.x + rs.x) / 2, (ls.y + rs.y) / 2)

/-- The neck angle computed by `analyzePosePosture` for a frame
(src/script.js lines 238-256). -/
noncomputable def frameNeckAngle (landmarks : List (Option Keypoint)) : ℝ :=
  neckAngleFrom (avgEarOf landmarks) (avgShoulderOf landmarks)

/-- Alert raise `showPostureAlert` (src/script.js lines 420-436): when no
alert is shown, display the banner, play the audio (the returned Bool,
true exactly when the raise signal fires) and schedule the delayed
auto-hide re-check; otherwise do nothing. -/
def showPostureAlert (st : PostureState) : PostureState × Bool :=
  if st.alertShown then (st, false)
  else ({ st with alertShown := true, alertTimeoutPending := true }, true)

/-- Alert hide `hidePostureAlert` (src/script.js lines 438-447): when an
alert is shown, hide the banner and cancel the pending auto-hide timer. -/
def hidePostureAlert (st : PostureState) : PostureState :=
  if st.alertShown then
    { st with alertShown := false, alertTimeoutPending := false }
  else st

/-- Reset path `resetPoorPostureTimer` (src/script.js lines 312-317):
clear the streak start, zero the duration, hide the timer, hide the alert. -/
def resetPoorPostureTimer (st : PostureState) : PostureState :=
  hidePostureAlert
    { st with poorPostureStartTime := none, poorPostureDuration := 0, timerVisible := false }

/-- Timer display update `updatePostureTimer` (src/script.js lines 319-329):
no-op when no streak is running; otherwise show the timer, set the label to
the floored seconds and the fill to `min (duration / threshold) 1`. -/
def updatePostureTimer (st : PostureState) : PostureState :=
  match st.poorPostureStartTime with
  | none => st
  | some _ =>
      { st with
        timerVisible := true
        timerSeconds := ⌊(st.poorPostureDuration : ℚ) / 1000⌋
        timerProgress := min ((st.poorPostureDuration : ℚ) / (warningDurationThreshold : ℚ)) 1 }

/-- Seconds remaining until the alert, `Math.ceil (remainingTime / 1000)`
with `remainingTime = max 0 (threshold - duration)`
(src/script.js lines 293-294). -/
def secondsRemainingOf (d : ℤ) : ℤ :=
  ⌈((max 0 (warningDurationThreshold - d) : ℤ) : ℚ) / 1000⌉

/-- Emission on a poor frame after the duration update
(src/script.js lines 293-306): at or past the dwell threshold, the alert
title and the alert raise; before it, the countdown title and an alert
hide; in both cases the timer display is refreshed. -/
noncomputable def poorPostureEmit (st1 : PostureState) : PostureState × StatusRecord :=
  if st1.poorPostureDuration ≥ warningDurationThreshold then
    (updatePostureTimer (showPostureAlert st1).1,
      { quality := "poor"
        angleArg := .num st1.currentNeckAngle
        title := "Poor Posture Alert!"
        subtitle := toString (jsRound st1.currentNeckAngle) ++ "° - Straighten up now!"
        alertRaised := (showPostureAlert st1).2 })
  else
    (updatePostureTimer (hidePostureAlert st1),
      { quality := "poor"
        angleArg := .num st1.currentNeckAngle
        title := "Poor Posture Detected"
        subtitle := toString (jsRound st1.currentNeckAngle) ++ "° - Warning in " ++
          toString (secondsRemainingOf st1.poorPostureDuration) ++ "s"
        alertRaised := false })

/-- Poor branch of `handlePosturePersistence` (src/script.js lines 284-291):
start a streak at the current time on the first poor frame, otherwise set the
duration to the time elapsed since the streak start. -/
noncomputable def poorPostureStep (st : PostureState) (now : ℤ) : PostureState × StatusRecord :=
  match st.poorPostureStartTime with
  | none =>
      poorPostureEmit { st with poorPostureStartTime := some now, poorPostureDuration := 0 }
  | some t0 =>
      poorPostureEmit { st with poorPostureDuration := now - t0 }

/-- Classification with dwell timing `handlePosturePersistence`
(src/script.js lines 265-310).  The `Date.now()` of line 266 is the
caller-supplied `now`.  The final `updatePostureStatus` call of line 309 is
the returned record. -/
noncomputable def handlePosturePersistence (st : PostureState) (now : ℤ) :
    PostureState × StatusRecord :=
  if st.currentNeckAngle ≥ postureThresholds.good then
    (resetPoorPostureTimer st,
      { quality := "good"
        angleArg := .num st.currentNeckAngle
        title := "Excellent Posture!"
        subtitle := toString (jsRound st.currentNeckAngle) ++ "° - Keep it up!"
        alertRaised := false })
  else if st.currentNeckAngle ≥ postureThresholds.warning then
    (resetPoorPostureTimer st,
      { quality := "fair"
        angleArg := .num st.currentNeckAngle
        title := "Fair Posture"
        subtitle := toString (jsRound st.currentNeckAngle) ++ "° - Could be better"
        alertRaised := false })
  else
    poorPostureStep st now

/-- Per-frame entry point `analyzePosePosture` (src/script.js lines 215-263):
a frame that fails the visibility gate emits the unknown record (with the
string placeholder in the angle slot, line 232) and runs the reset path;
otherwise the neck angle is recomputed and classification runs.  The drawing
calls are out of scope. -/
noncomputable def analyzePosePosture (st : PostureState)
    (landmarks : List (Option Keypoint)) (now : ℤ) : PostureState × StatusRecord :=
  if hasGoodVisibility landmarks = true then
    handlePosturePersistence { st with currentNeckAngle := frameNeckAngle landmarks } now
  else
    (resetPoorPostureTimer st,
      { quality := "unknown"
        angleArg := .placeholder
        title := "Keypoints not visible"
        subtitle := "Position yourself within the frame"
        alertRaised := false })

/-- Condition of the delayed auto-hide re-check (src/script.js line 431):
`this.currentNeckAngle <= this.postureThresholds.fair`.  The thresholds
object declares no `fair` property, so the right side is `undefined` and a
JavaScript comparison with `undefined` is false. -/
def autoHideCheck (st : PostureState) : Prop :=
  match thresholdsLookup postureThresholds "fair" with
  | some v => st.currentNeckAngle ≤ v
  | none => False

/-- Body of the `setTimeout` callback scheduled by `showPostureAlert`
(src/script.js lines 430-434): hide the alert when the check passes. -/
noncomputable def alertTimeoutCallback (st : PostureState) : PostureState :=
  match thresholdsLookup postureThresholds "fair" with
  | some v => if st.currentNeckAngle ≤ v then hidePostureAlert st else st
  | none => st

/-! Concrete inputs used to instantiate theorems with hypotheses. -/

/-- Frame literal with the four required landmarks (MediaPipe indices 7, 8,
11, 12) filled in and the other indices empty. -/
def mkFrame (le re ls rs : Keypoint) : List (Option Keypoint) :=
  [none, none, none, none, none, none, none, some le, some re, none, none, some ls, some rs]

/-- Frame whose two ears coincide and whose two shoulders coincide, so the
averaged points equal the given ones. -/
def earShoulderFrame (e s : Keypoint) : List (Option Keypoint) := mkFrame e e s s

/-- Frame with the averaged ear level with the averaged shoulder and offset
horizontally: angle 90, classified poor. -/
noncomputable def framePoorFlat : List (Option Keypoint) :=
  earShoulderFrame ⟨4/5, 3/5, some 1⟩ ⟨1/2, 3/5, some 1⟩

/-- Frame with the averaged ear vertically above the averaged shoulder:
angle 180, classified good. -/
noncomputable def frameGoodVertical : List (Option Keypoint) :=
  earShoulderFrame ⟨1/2, 3/10, some 1⟩ ⟨1/2, 3/5, some 1⟩

/-- Frame with the averaged ear vertically below the averaged shoulder
(screen coordinates grow downward): equal x coordinates but angle 0. -/
noncomputable def frameEarBelow : List (Option Keypoint) :=
  earShoulderFrame ⟨1/2, 4/5, some 1⟩ ⟨1/2, 1/5, some 1⟩

/-- Level frame with a small horizontal ear offset (one tenth). -/
noncomputable def frameFlatNear : List (Option Keypoint) :=
  earShoulderFrame ⟨3/5, 1/2, some 1⟩ ⟨1/2, 1/2, some 1⟩

/-- Level frame with a larger horizontal ear offset (one fifth). -/
noncomputable def frameFlatFar : List (Option Keypoint) :=
  earShoulderFrame ⟨7/10, 1/2, some 1⟩ ⟨1/2, 1/2, some 1⟩

/-- Frame whose left ear reports visibility exactly 0 while the other three
landmarks report visibility 1; geometry is vertical (angle 180). -/
noncomputable def frameZeroVis : List (Option Keypoint) :=
  mkFrame ⟨1/2, 3/10, some 0⟩ ⟨1/2, 3/10, some 1⟩ ⟨1/2, 3/5, some 1⟩ ⟨1/2, 3/5, some 1⟩

/-- Engine state with a given current neck angle and no poor streak. -/
noncomputable def stateWithAngle (a : ℝ) : PostureState :=
  { initialState with currentNeckAngle := a }

/-- Engine state in the middle of a poor streak that started at time 0. -/
noncomputable def stateMidRun : PostureState :=
  { initialState with currentNeckAngle := 90, poorPostureStartTime := some 0 }

/-- Engine state in a poor streak with the alert already shown. -/
noncomputable def stateAlerting : PostureState :=
  { initialState with
    currentNeckAngle := 90
    poorPostureStartTime := some 0
    poorPostureDuration := 10000
    alertShown := true
    alertTimeoutPending := true
    timerVisible := true }

/-! Helper lemmas: field bookkeeping of the small state updates. -/

@[simp] lemma showPostureAlert_fst_alertShown (st : PostureState) :
    (showPostureAlert st).1.alertShown = true := by
  unfold showPostureAlert; split <;> simp_all

@[simp] lemma showPostureAlert_snd (st : PostureState) :
    (showPostureAlert st).2 = !st.alertShown := by
  unfold showPostureAlert; split <;> simp_all

@[simp] lemma showPostureAlert_fst_start (st : PostureState) :
    (showPostureAlert st).1.poorPostureStartTime = st.poorPostureStartTime := by
  unfold showPostureAlert; split <;> rfl

@[simp] lemma showPostureAlert_fst_duration (st : PostureState) :
    (showPostureAlert st).1.poorPostureDuration = st.poorPostureDuration := by
  unfold showPostureAlert; split <;> rfl

@[simp] lemma showPostureAlert_fst_angle (st : PostureState) :
    (showPostureAlert st).1.currentNeckAngle = st.currentNeckAngle := by
  unfold showPostureAlert; split <;> rfl

@[simp] lemma hidePostureAlert_alertShown (st : PostureState) :
    (hidePostureAlert st).alertShown = false := by
  unfold hidePostureAlert; split <;> simp_all

@[simp] lemma hidePostureAlert_start (st : PostureState) :
    (hidePostureAlert st).poorPostureStartTime = st.poorPostureStartTime := by
  unfold hidePostureAlert; split <;> rfl

@[simp] lemma hidePostureAlert_duration (st : PostureState) :
    (hidePostureAlert st).poorPostureDuration = st.poorPostureDuration := by
  unfold hidePostureAlert; split <;> rfl

@[simp] lemma hidePostureAlert_angle (st : PostureState) :
    (hidePostureAlert st).currentNeckAngle = st.currentNeckAngle := by
  unfold hidePostureAlert; split <;> rfl

@[simp] lemma hidePostureAlert_timerVisible (st : PostureState) :
    (hidePostureAlert st).timerVisible = st.timerVisible := by
  unfold hidePostureAlert; split <;> rfl

lemma hidePostureAlert_pending (st : PostureState)
    (h : st.alertTimeoutPending = true → st.alertShown = true) :
    (hidePostureAlert st).alertTimeoutPending = false := by
  unfold hidePostureAlert
  split
  · rfl
  · rename_i hs
    cases hp : st.alertTimeoutPending with
    | false => rfl
    | true => exact absurd (h hp) hs

@[simp] lemma resetPoorPostureTimer_start (st : PostureState) :
    (resetPoorPostureTimer st).poorPostureStartTime = none := by
  unfold resetPoorPostureTimer; simp

@[simp] lemma resetPoorPostureTimer_duration (st : PostureState) :
    (resetPoorPostureTimer st).poorPostureDuration = 0 := by
  unfold resetPoorPostureTimer; simp

@[simp] lemma resetPoorPostureTimer_timerVisible (st : PostureState) :
    (resetPoorPostureTimer st).timerVisible = false := by
  unfold resetPoorPostureTimer; simp

@[simp] lemma resetPoorPostureTimer_alertShown (st : PostureState) :
    (resetPoorPostureTimer st).alertShown = false := by
  unfold resetPoorPostureTimer; simp

@[simp] lemma resetPoorPostureTimer_angle (st : PostureState) :
    (resetPoorPostureTimer st).currentNeckAngle = st.currentNeckAngle := by
  unfold resetPoorPostureTimer; simp

lemma resetPoorPostureTimer_pending (st : PostureState)
    (h : st.alertTimeoutPending = true → st.alertShown = true) :
    (resetPoorPostureTimer st).alertTimeoutPending = false := by
  unfold resetPoorPostureTimer
  exact hidePostureAlert_pending _ h

@[simp] lemma updatePostureTimer_start (st : PostureState) :
    (updatePostureTimer st).poorPostureStartTime = st.poorPostureStartTime := by
  unfold updatePostureTimer; split <;> rfl

@[simp] lemma updatePostureTimer_duration (st : PostureState) :
    (updatePostureTimer st).poorPostureDuration = st.poorPostureDuration := by
  unfold updatePostureTimer; split <;> rfl

@[simp] lemma updatePostureTimer_alertShown (st : PostureState) :
    (updatePostureTimer st).alertShown = st.alertShown := by
  unfold updatePostureTimer; split <;> rfl

@[simp] lemma updatePostureTimer_pending (st : PostureState) :
    (updatePostureTimer st).alertTimeoutPending = st.alertTimeoutPending := by
  unfold updatePostureTimer; split <;> rfl

@[simp] lemma updatePostureTimer_angle (st : PostureState) :
    (updatePostureTimer st).currentNeckAngle = st.currentNeckAngle := by
  unfold updatePostureTimer; split <;> rfl

lemma updatePostureTimer_of_some (st : PostureState) (t0 : ℤ)
    (h : st.poorPostureStartTime = some t0) :
    (updatePostureTimer st).timerVisible = true ∧
    (updatePostureTimer st).timerSeconds = ⌊(st.poorPostureDuration : ℚ) / 1000⌋ ∧
    (updatePostureTimer st).timerProgress =
      min ((st.poorPostureDuration : ℚ) / (warningDurationThreshold : ℚ)) 1 := by
  unfold updatePostureTimer
  rw [h]
  exact ⟨rfl, rfl, rfl⟩

/-! Helper lemmas: branch selection in the classification. -/

lemma poorPostureStep_of_none (st : PostureState) (now : ℤ)
    (h : st.poorPostureStartTime = none) :
    poorPostureStep st now =
      poorPostureEmit
        { st with poorPostureStartTime := some now, poorPostureDuration := 0 } := by
  unfold poorPostureStep
  rw [h]

lemma poorPostureStep_of_some (st : PostureState) (now t0 : ℤ)
    (h : st.poorPostureStartTime = some t0) :
    poorPostureStep st now =
      poorPostureEmit { st with poorPostureDuration := now - t0 } := by
  unfold poorPostureStep
  rw [h]

lemma handlePosturePersistence_of_poor (st : PostureState) (now : ℤ)
    (h : st.currentNeckAngle < postureThresholds.warning) :
    handlePosturePersistence st now = poorPostureStep st now := by
  have hw : ¬ st.currentNeckAngle ≥ postureThresholds.warning := not_le.mpr h
  have hg : ¬ st.currentNeckAngle ≥ postureThresholds.good := by
    intro hc
    apply hw
    have : postureThresholds.warning ≤ postureThresholds.good := by
      unfold postureThresholds; norm_num
    exact le_trans this hc
  unfold handlePosturePersistence
  rw [if_neg hg, if_neg hw]

@[simp] lemma poorPostureEmit_quality (st1 : PostureState) :
    (poorPostureEmit st1).2.quality = "poor" := by
  unfold poorPostureEmit; split <;> rfl

@[simp] lemma poorPostureStep_quality (st : PostureState) (now : ℤ) :
    (poorPostureStep st now).2.quality = "poor" := by
  unfold poorPostureStep; split <;> simp

lemma handlePosturePersistence_angle (st : PostureState) (now : ℤ) :
    (handlePosturePersistence st now).1.currentNeckAngle = st.currentNeckAngle := by
  unfold handlePosturePersistence poorPostureStep poorPostureEmit
  split
  · simp
  split
  · simp
  split <;> split <;> simp

lemma handlePosturePersistence_quality (st : PostureState) (now : ℤ) :
    (handlePosturePersistence st now).2.quality = "good" ∨
    (handlePosturePersistence st now).2.quality = "fair" ∨
    (handlePosturePersistence st now).2.quality = "poor" := by
  unfold handlePosturePersistence
  split
  · left; rfl
  split
  · right; left; rfl
  · right; right; simp

/-! Helper lemmas: the two-argument arctangent. -/

lemma atan2_of_pos_right (y x : ℝ) (hx : 0 < x) : atan2 y x = Real.arctan (y / x) := by
  unfold atan2
  rw [if_pos hx]

lemma atan2_zero_of_nonneg (x : ℝ) (hx : 0 ≤ x) : atan2 0 x = 0 := by
  unfold atan2
  rcases lt_or_eq_of_le hx with h | h
  · rw [if_pos h, zero_div, Real.arctan_zero]
  · rw [if_neg (by rw [← h]; exact lt_irrefl 0), if_neg (by rw [← h]; exact lt_irrefl 0),
      if_neg (lt_irrefl 0), if_neg (lt_irrefl 0)]

lemma atan2_zero_of_neg (x : ℝ) (hx : x < 0) : atan2 0 x = Real.pi := by
  unfold atan2
  rw [if_neg (not_lt.mpr hx.le), if_pos hx, if_pos le_rfl, zero_div, Real.arctan_zero, zero_add]

lemma atan2_pos_left (y : ℝ) (hy : 0 < y) : atan2 y 0 = Real.pi / 2 := by
  unfold atan2
  rw [if_neg (lt_irrefl 0), if_neg (lt_irrefl 0), if_pos hy]

lemma arctan_nonneg_of (x : ℝ) (hx : 0 ≤ x) : 0 ≤ Real.arctan x := by
  have := Real.arctan_strictMono.monotone hx
  rwa [Real.arctan_zero] at this

lemma arctan_nonpos_of (x : ℝ) (hx : x ≤ 0) : Real.arctan x ≤ 0 := by
  have := Real.arctan_strictMono.monotone hx
  rwa [Real.arctan_zero] at this

lemma atan2_nonneg (y x : ℝ) (hy : 0 ≤ y) : 0 ≤ atan2 y x := by
  unfold atan2
  rcases lt_trichotomy x 0 with hx | hx | hx
  · rw [if_neg (by linarith), if_pos hx, if_pos hy]
    have h1 := Real.neg_pi_div_two_lt_arctan (y / x)
    have h2 := Real.pi_pos
    linarith
  · subst hx
    rw [if_neg (lt_irrefl 0), if_neg (lt_irrefl 0)]
    rcases lt_or_eq_of_le hy with h | h
    · rw [if_pos h]
      positivity
    · rw [if_neg (by rw [← h]; exact lt_irrefl 0), if_neg (by rw [← h]; exact lt_irrefl 0)]
  · rw [if_pos hx]
    exact arctan_nonneg_of _ (div_nonneg hy hx.le)

lemma atan2_le_pi (y x : ℝ) (hy : 0 ≤ y) : atan2 y x ≤ Real.pi := by
  unfold atan2
  rcases lt_trichotomy x 0 with hx | hx | hx
  · rw [if_neg (by linarith), if_pos hx, if_pos hy]
    have h1 : y / x ≤ 0 := div_nonpos_iff.mpr (Or.inl ⟨hy, hx.le⟩)
    have h2 := arctan_nonpos_of _ h1
    linarith
  · subst hx
    rw [if_neg (lt_irrefl 0), if_neg (lt_irrefl 0)]
    have h2 := Real.pi_pos
    rcases lt_or_eq_of_le hy with h | h
    · rw [if_pos h]
      linarith
    · rw [if_neg (by rw [← h]; exact lt_irrefl 0), if_neg (by rw [← h]; exact lt_irrefl 0)]
      linarith
  · rw [if_pos hx]
    have h1 := Real.arctan_lt_pi_div_two (y / x)
    have h2 := Real.pi_pos
    linarith

/-! Helper lemmas: the neck-angle computation. -/

lemma neckAngleFrom_eq (e s : ℝ × ℝ) :
    neckAngleFrom e s = 180 - atan2 |e.1 - s.1| (s.2 - e.2) * (180 / Real.pi) := by
  unfold neckAngleFrom
  congr 1
  apply abs_of_nonneg
  apply mul_nonneg (atan2_nonneg _ _ (abs_nonneg _))
  positivity

lemma neckAngleFrom_vertical (e s : ℝ × ℝ) (hx : e.1 = s.1) (hy : e.2 ≤ s.2) :
    neckAngleFrom e s = 180 := by
  rw [neckAngleFrom_eq]
  rw [show e.1 - s.1 = 0 by rw [hx]; ring, abs_zero,
    atan2_zero_of_nonneg _ (by linarith), zero_mul, sub_zero]

lemma neckAngleFrom_horizontal (e s : ℝ × ℝ) (hx : e.1 ≠ s.1) (hy : e.2 = s.2) :
    neckAngleFrom e s = 90 := by
  rw [neckAngleFrom_eq]
  have hd : 0 < |e.1 - s.1| := abs_pos.mpr (sub_ne_zero.mpr hx)
  rw [show s.2 - e.2 = 0 by rw [hy]; ring, atan2_pos_left _ hd]
  have hpi := Real.pi_ne_zero
  field_simp
  ring

lemma neckAngleFrom_below (e s : ℝ × ℝ) (hx : e.1 = s.1) (hy : s.2 < e.2) :
    neckAngleFrom e s = 0 := by
  rw [neckAngleFrom_eq]
  rw [show e.1 - s.1 = 0 by rw [hx]; ring, abs_zero, atan2_zero_of_neg _ (by linarith)]
  have hpi := Real.pi_ne_zero
  field_simp

lemma neckAngleFrom_of_dy_pos (e s : ℝ × ℝ) (hy : e.2 < s.2) :
    neckAngleFrom e s =
      180 - Real.arctan (|e.1 - s.1| / (s.2 - e.2)) * (180 / Real.pi) := by
  rw [neckAngleFrom_eq, atan2_of_pos_right _ _ (by linarith)]

/-! Helper lemmas: evaluation on the concrete frames. -/

@[simp] lemma getLandmark_mkFrame_7 (le re ls rs : Keypoint) :
    getLandmark (mkFrame le re ls rs) 7 = some le := rfl

@[simp] lemma getLandmark_mkFrame_8 (le re ls rs : Keypoint) :
    getLandmark (mkFrame le re ls rs) 8 = some re := rfl

@[simp] lemma getLandmark_mkFrame_11 (le re ls rs : Keypoint) :
    getLandmark (mkFrame le re ls rs) 11 = some ls := rfl

@[simp] lemma getLandmark_mkFrame_12 (le re ls rs : Keypoint) :
    getLandmark (mkFrame le re ls rs) 12 = some rs := rfl

@[simp] lemma visOK_some (k : Keypoint) :
    visOK (some k) = decide (effVisibility k > 6/10) := rfl

lemma hasGoodVisibility_mkFrame (le re ls rs : Keypoint) :
    hasGoodVisibility (mkFrame le re ls rs) =
      (decide (effVisibility le > 6/10) && decide (effVisibility re > 6/10) &&
        decide (effVisibility ls > 6/10) && decide (effVisibility rs > 6/10)) := rfl

@[simp] lemma effVisibility_some (x y : ℝ) (v : ℚ) :
    effVisibility ⟨x, y, some v⟩ = if v = 0 then 1 else v := rfl

lemma frameNeckAngle_mkFrame (le re ls rs : Keypoint) :
    frameNeckAngle (mkFrame le re ls rs) =
      neckAngleFrom ((le.x + re.x) / 2, (le.y + re.y) / 2)
        ((ls.x + rs.x) / 2, (ls.y + rs.y) / 2) := rfl

lemma frameNeckAngle_earShoulderFrame (e s : Keypoint) :
    frameNeckAngle (earShoulderFrame e s) = neckAngleFrom (e.x, e.y) (s.x, s.y) := by
  unfold earShoulderFrame
  rw [frameNeckAngle_mkFrame]
  have h1 : ((e.x + e.x) / 2, (e.y + e.y) / 2) = ((e.x : ℝ), (e.y : ℝ)) := by
    rw [Prod.mk.injEq]; constructor <;> ring
  have h2 : ((s.x + s.x) / 2, (s.y + s.y) / 2) = ((s.x : ℝ), (s.y : ℝ)) := by
    rw [Prod.mk.injEq]; constructor <;> ring
  rw [h1, h2]

lemma hasGoodVisibility_earShoulderFrame (e s : Keypoint) :
    hasGoodVisibility (earShoulderFrame e s) =
      (decide (effVisibility e > 6/10) && decide (effVisibility s > 6/10)) := by
  unfold earShoulderFrame
  rw [hasGoodVisibility_mkFrame]
  cases h1 : decide (effVisibility e > 6/10) <;>
    cases h2 : decide (effVisibility s > 6/10) <;> rfl

lemma vis_framePoorFlat : hasGoodVisibility framePoorFlat = true := by
  unfold framePoorFlat
  rw [hasGoodVisibility_earShoulderFrame]
  norm_num

lemma vis_frameGoodVertical : hasGoodVisibility frameGoodVertical = true := by
  unfold frameGoodVertical
  rw [hasGoodVisibility_earShoulderFrame]
  norm_num

lemma vis_frameEarBelow : hasGoodVisibility frameEarBelow = true := by
  unfold frameEarBelow
  rw [hasGoodVisibility_earShoulderFrame]
  norm_num

lemma vis_frameFlatNear : hasGoodVisibility frameFlatNear = true := by
  unfold frameFlatNear
  rw [hasGoodVisibility_earShoulderFrame]
  norm_num

lemma vis_frameFlatFar : hasGoodVisibility frameFlatFar = true := by
  unfold frameFlatFar
  rw [hasGoodVisibility_earShoulderFrame]
  norm_num

lemma vis_frameZeroVis : hasGoodVisibility frameZeroVis = true := by
  unfold frameZeroVis
  rw [hasGoodVisibility_mkFrame]
  norm_num

lemma vis_emptyFrame : hasGoodVisibility [] = false := rfl

lemma angle_framePoorFlat : frameNeckAngle framePoorFlat = 90 := by
  unfold framePoorFlat
  rw [frameNeckAngle_earShoulderFrame]
  apply neckAngleFrom_horizontal <;> norm_num

lemma angle_frameGoodVertical : frameNeckAngle frameGoodVertical = 180 := by
  unfold frameGoodVertical
  rw [frameNeckAngle_earShoulderFrame]
  apply neckAngleFrom_vertical <;> norm_num

lemma angle_frameEarBelow : frameNeckAngle frameEarBelow = 0 := by
  unfold frameEarBelow
  rw [frameNeckAngle_earShoulderFrame]
  apply neckAngleFrom_below <;> norm_num

lemma angle_frameFlatNear : frameNeckAngle frameFlatNear = 90 := by
  unfold frameFlatNear
  rw [frameNeckAngle_earShoulderFrame]
  apply neckAngleFrom_horizontal <;> norm_num

lemma angle_frameFlatFar : frameNeckAngle frameFlatFar = 90 := by
  unfold frameFlatFar
  rw [frameNeckAngle_earShoulderFrame]
  apply neckAngleFrom_horizontal <;> norm_num

lemma angle_frameZeroVis : frameNeckAngle frameZeroVis = 180 := by
  unfold frameZeroVis
  rw [frameNeckAngle_mkFrame]
  apply neckAngleFrom_vertical <;> norm_num

/-! Helper lemmas: unfolding the per-frame entry point and the poor path. -/

lemma analyzePosePosture_of_gate (st : PostureState) (f : List (Option Keypoint)) (now : ℤ)
    (h : hasGoodVisibility f = true) :
    analyzePosePosture st f now =
      handlePosturePersistence { st with currentNeckAngle := frameNeckAngle f } now := by
  unfold analyzePosePosture
  rw [if_pos h]

lemma analyzePosePosture_of_no_gate (st : PostureState) (f : List (Option Keypoint)) (now : ℤ)
    (h : hasGoodVisibility f = false) :
    analyzePosePosture st f now =
      (resetPoorPostureTimer st,
        { quality := "unknown"
          angleArg := .placeholder
          title := "Keypoints not visible"
          subtitle := "Position yourself within the frame"
          alertRaised := false }) := by
  unfold analyzePosePosture
  rw [if_neg (by rw [h]; simp)]

lemma hpp_quality_good (st : PostureState) (now : ℤ)
    (h : st.currentNeckAngle ≥ postureThresholds.good) :
    (handlePosturePersistence st now).2.quality = "good" := by
  unfold handlePosturePersistence
  rw [if_pos h]

lemma poorPostureEmit_state (st1 : PostureState) (t0 : ℤ)
    (h : st1.poorPostureStartTime = some t0) :
    (poorPostureEmit st1).1.poorPostureStartTime = some t0 ∧
    (poorPostureEmit st1).1.poorPostureDuration = st1.poorPostureDuration ∧
    (poorPostureEmit st1).1.timerVisible = true ∧
    (poorPostureEmit st1).1.timerSeconds = ⌊(st1.poorPostureDuration : ℚ) / 1000⌋ ∧
    (poorPostureEmit st1).1.timerProgress =
      min ((st1.poorPostureDuration : ℚ) / (warningDurationThreshold : ℚ)) 1 := by
  unfold poorPostureEmit
  split
  · have hs : (showPostureAlert st1).1.poorPostureStartTime = some t0 := by
      rw [showPostureAlert_fst_start, h]
    obtain ⟨a, b, c⟩ := updatePostureTimer_of_some _ t0 hs
    refine ⟨?_, ?_, a, ?_, ?_⟩
    · rw [updatePostureTimer_start, hs]
    · rw [updatePostureTimer_duration, showPostureAlert_fst_duration]
    · rw [b, showPostureAlert_fst_duration]
    · rw [c, showPostureAlert_fst_duration]
  · have hs : (hidePostureAlert st1).poorPostureStartTime = some t0 := by
      rw [hidePostureAlert_start, h]
    obtain ⟨a, b, c⟩ := updatePostureTimer_of_some _ t0 hs
    refine ⟨?_, ?_, a, ?_, ?_⟩
    · rw [updatePostureTimer_start, hs]
    · rw [updatePostureTimer_duration, hidePostureAlert_duration]
    · rw [b, hidePostureAlert_duration]
    · rw [c, hidePostureAlert_duration]

lemma poorPostureStep_state_none (st : PostureState) (now : ℤ)
    (h : st.poorPostureStartTime = none) :
    (poorPostureStep st now).1.poorPostureStartTime = some now ∧
    (poorPostureStep st now).1.poorPostureDuration = 0 ∧
    (poorPostureStep st now).1.timerVisible = true ∧
    (poorPostureStep st now).1.timerSeconds = ⌊((0 : ℤ) : ℚ) / 1000⌋ ∧
    (poorPostureStep st now).1.timerProgress =
      min (((0 : ℤ) : ℚ) / (warningDurationThreshold : ℚ)) 1 := by
  rw [poorPostureStep_of_none st now h]
  exact poorPostureEmit_state _ now rfl

lemma poorPostureStep_state_some (st : PostureState) (now t0 : ℤ)
    (h : st.poorPostureStartTime = some t0) :
    (poorPostureStep st now).1.poorPostureStartTime = some t0 ∧
    (poorPostureStep st now).1.poorPostureDuration = now - t0 ∧
    (poorPostureStep st now).1.timerVisible = true ∧
    (poorPostureStep st now).1.timerSeconds = ⌊((now - t0 : ℤ) : ℚ) / 1000⌋ ∧
    (poorPostureStep st now).1.timerProgress =
      min (((now - t0 : ℤ) : ℚ) / (warningDurationThreshold : ℚ)) 1 := by
  rw [poorPostureStep_of_some st now t0 h]
  exact poorPostureEmit_state _ t0 h

lemma visOK_true_of (k : Keypoint)
    (h : k.visibility = some 0 ∨ effVisibility k > 6/10) :
    visOK (some k) = true := by
  rcases h with h0 | hgt
  · have : effVisibility k = 1 := by unfold effVisibility; rw [h0]; simp
    simp [visOK, this]
    norm_num
  · simp [visOK]
    exact hgt

lemma avgEarOf_earShoulderFrame (e s : Keypoint) :
    avgEarOf (earShoulderFrame e s) = (e.x, e.y) := by
  unfold avgEarOf earShoulderFrame
  simp only [getLandmark_mkFrame_7, getLandmark_mkFrame_8, Option.getD_some]
  rw [Prod.mk.injEq]
  constructor <;> ring

lemma avgShoulderOf_earShoulderFrame (e s : Keypoint) :
    avgShoulderOf (earShoulderFrame e s) = (s.x, s.y) := by
  unfold avgShoulderOf earShoulderFrame
  simp only [getLandmark_mkFrame_11, getLandmark_mkFrame_12, Option.getD_some]
  rw [Prod.mk.injEq]
  constructor <;> ring

/-! Claim theorems. -/

/-- C5: with the visibility gate passed, classification by
`handlePosturePersistence` uses inclusive lower bounds: an angle exactly
equal to the good threshold 168 classifies as good, exactly equal to the
warning threshold 160 as fair, and strictly below 160 as poor. -/
theorem c5_threshold_boundaries (st : PostureState) (now : ℤ) :
    postureThresholds.good = 168 ∧ postureThresholds.warning = 160 ∧
    (st.currentNeckAngle = 168 →
      (handlePosturePersistence st now).2.quality = "good") ∧
    (st.currentNeckAngle = 160 →
      (handlePosturePersistence st now).2.quality = "fair") ∧
    (st.currentNeckAngle < 160 →
      (handlePosturePersistence st now).2.quality = "poor") := by
  refine ⟨rfl, rfl, ?_, ?_, ?_⟩
  · intro h
    unfold handlePosturePersistence
    rw [if_pos (by rw [h]; norm_num [postureThresholds])]
  · intro h
    unfold handlePosturePersistence
    rw [if_neg (by rw [h]; norm_num [postureThresholds]),
      if_pos (by rw [h]; norm_num [postureThresholds])]
  · intro h
    rw [handlePosturePersistence_of_poor st now
      (by rw [show postureThresholds.warning = 160 from rfl]; exact h)]
    simp

/-- Witness for c5: the boundary angles 168, 160 and the off-boundary
angle 159 classify as good, fair and poor. -/
theorem c5_threshold_boundaries_witness :
    (handlePosturePersistence (stateWithAngle 168) 0).2.quality = "good" ∧
    (handlePosturePersistence (stateWithAngle 160) 0).2.quality = "fair" ∧
    (handlePosturePersistence (stateWithAngle 159) 0).2.quality = "poor" :=
  ⟨(c5_threshold_boundaries (stateWithAngle 168) 0).2.2.1 rfl,
   (c5_threshold_boundaries (stateWithAngle 160) 0).2.2.2.1 rfl,
   (c5_threshold_boundaries (stateWithAngle 159) 0).2.2.2.2 (by norm_num [stateWithAngle])⟩

/-- C6: the thresholds object declares no fair property, so the auto-hide
condition of the delayed re-check compares the angle against an undefined
value, is never satisfied, and the scheduled callback leaves the state
(in particular the alert flag) unchanged. -/
theorem c6_autohide_never_fires (st : PostureState) :
    thresholdsLookup postureThresholds "fair" = none ∧
    ¬ autoHideCheck st ∧
    alertTimeoutCallback st = st := by
  have hl : thresholdsLookup postureThresholds "fair" = none := rfl
  refine ⟨hl, ?_, ?_⟩
  · intro h
    unfold autoHideCheck at h
    rw [hl] at h
    exact h
  · unfold alertTimeoutCallback
    rw [hl]

/-- C9 (amended): when the visibility gate fails, the stored neck angle is
left unchanged from the last valid computation, but the status published for
the unknown frame carries the string placeholder in its angle slot (rendered
as NaN by the rounding in the presentation call), not the last known angle. -/
theorem c9_stale_angle (st : PostureState) (f : List (Option Keypoint)) (now : ℤ)
    (h : hasGoodVisibility f = false) :
    (analyzePosePosture st f now).1.currentNeckAngle = st.currentNeckAngle ∧
    (analyzePosePosture st f now).2.angleArg = AngleArg.placeholder := by
  rw [analyzePosePosture_of_no_gate st f now h]
  exact ⟨resetPoorPostureTimer_angle st, rfl⟩

/-- Counterexample for C9 as stated: with last angle 90 and an empty frame,
the unknown status record carries the placeholder, which differs from the
numeric last known angle the claim promises. -/
theorem c9_stale_angle_cex :
    (stateWithAngle 90).currentNeckAngle = 90 ∧
    hasGoodVisibility [] = false ∧
    (analyzePosePosture (stateWithAngle 90) [] 0).2.angleArg = AngleArg.placeholder ∧
    AngleArg.placeholder ≠ AngleArg.num 90 := by
  refine ⟨rfl, rfl, ?_, fun h => AngleArg.noConfusion h⟩
  rw [analyzePosePosture_of_no_gate (stateWithAngle 90) [] 0 vis_emptyFrame]

/-- Witness for c9 at a concrete state and the empty frame. -/
theorem c9_stale_angle_witness :
    hasGoodVisibility [] = false ∧
    ((analyzePosePosture (stateWithAngle 90) [] 0).1.currentNeckAngle =
        (stateWithAngle 90).currentNeckAngle ∧
      (analyzePosePosture (stateWithAngle 90) [] 0).2.angleArg = AngleArg.placeholder) :=
  ⟨rfl, c9_stale_angle (stateWithAngle 90) [] 0 rfl⟩

/-- C1 (amended): a frame in which some required landmark is missing, or
present with effective visibility at most 0.6 (effective visibility being the
reported one with 0 and absent defaulting to 1), gets quality unknown with
the fixed title and subtitle, and the dwell state is reset: no streak start,
zero duration, timer hidden, alert hidden. -/
theorem c1_gate_unknown (st : PostureState) (f : List (Option Keypoint)) (now : ℤ)
    (h : ∃ i ∈ ([7, 8, 11, 12] : List ℕ),
      getLandmark f i = none ∨
        ∃ k, getLandmark f i = some k ∧ effVisibility k ≤ 6/10) :
    (analyzePosePosture st f now).2.quality = "unknown" ∧
    (analyzePosePosture st f now).2.title = "Keypoints not visible" ∧
    (analyzePosePosture st f now).2.subtitle = "Position yourself within the frame" ∧
    (analyzePosePosture st f now).1.poorPostureStartTime = none ∧
    (analyzePosePosture st f now).1.poorPostureDuration = 0 ∧
    (analyzePosePosture st f now).1.timerVisible = false ∧
    (analyzePosePosture st f now).1.alertShown = false := by
  have hgate : hasGoodVisibility f = false := by
    obtain ⟨i, hi, hcase⟩ := h
    have hbad : visOK (getLandmark f i) = false := by
      rcases hcase with hnone | ⟨k, hk, hv⟩
      · rw [hnone]; rfl
      · rw [hk]
        simp only [visOK_some, decide_eq_false_iff_not]
        exact not_lt.mpr hv
    simp only [List.mem_cons, List.mem_singleton, List.not_mem_nil, or_false] at hi
    unfold hasGoodVisibility
    rcases hi with rfl | rfl | rfl | rfl <;> rw [hbad] <;> simp
  rw [analyzePosePosture_of_no_gate st f now hgate]
  exact ⟨rfl, rfl, rfl, by simp, by simp, by simp, by simp⟩

/-- Witness for c1 at the empty frame, where every landmark is missing. -/
theorem c1_gate_unknown_witness :
    (getLandmark [] 7 = none) ∧
    ((analyzePosePosture (stateWithAngle 90) [] 5).2.quality = "unknown" ∧
      (analyzePosePosture (stateWithAngle 90) [] 5).2.title = "Keypoints not visible" ∧
      (analyzePosePosture (stateWithAngle 90) [] 5).2.subtitle =
        "Position yourself within the frame" ∧
      (analyzePosePosture (stateWithAngle 90) [] 5).1.poorPostureStartTime = none ∧
      (analyzePosePosture (stateWithAngle 90) [] 5).1.poorPostureDuration = 0 ∧
      (analyzePosePosture (stateWithAngle 90) [] 5).1.timerVisible = false ∧
      (analyzePosePosture (stateWithAngle 90) [] 5).1.alertShown = false) :=
  ⟨rfl, c1_gate_unknown (stateWithAngle 90) [] 5 ⟨7, by simp, Or.inl rfl⟩⟩

/-- Counterexample for C1 as stated: in frameZeroVis the left ear is present
with reported visibility 0, which is at most 0.6, yet the frame is classified
(quality good) instead of unknown, because the truthiness default turns
visibility 0 into 1 before the gate comparison. -/
theorem c1_zero_visibility_cex :
    (∃ k, getLandmark frameZeroVis 7 = some k ∧
      k.visibility = some 0 ∧ (0 : ℚ) ≤ 6/10) ∧
    (analyzePosePosture initialState frameZeroVis 0).2.quality = "good" ∧
    ("good" : String) ≠ "unknown" := by
  refine ⟨⟨⟨1/2, 3/10, some 0⟩, rfl, rfl, by norm_num⟩, ?_, by simp⟩
  rw [analyzePosePosture_of_gate _ _ _ vis_frameZeroVis]
  apply hpp_quality_good
  show frameNeckAngle frameZeroVis ≥ postureThresholds.good
  rw [angle_frameZeroVis]
  norm_num [postureThresholds]

/-- C2: on a poor-classified frame, the dwell duration is 0 when the streak
starts at this frame (no streak start recorded) and the elapsed time since
the recorded start otherwise; the timer becomes visible with seconds equal to
the floored duration in seconds and progress min (duration / 10000) 1. -/
theorem c2_dwell_accumulation (st : PostureState) (f : List (Option Keypoint)) (now : ℤ)
    (hvis : hasGoodVisibility f = true)
    (hpoor : frameNeckAngle f < postureThresholds.warning) :
    (analyzePosePosture st f now).1.timerVisible = true ∧
    (st.poorPostureStartTime = none →
      (analyzePosePosture st f now).1.poorPostureStartTime = some now ∧
      (analyzePosePosture st f now).1.poorPostureDuration = 0) ∧
    (∀ t0 : ℤ, st.poorPostureStartTime = some t0 →
      (analyzePosePosture st f now).1.poorPostureStartTime = some t0 ∧
      (analyzePosePosture st f now).1.poorPostureDuration = now - t0) ∧
    (analyzePosePosture st f now).1.timerSeconds =
      ⌊((analyzePosePosture st f now).1.poorPostureDuration : ℚ) / 1000⌋ ∧
    (analyzePosePosture st f now).1.timerProgress =
      min (((analyzePosePosture st f now).1.poorPostureDuration : ℚ) /
        (warningDurationThreshold : ℚ)) 1 := by
  rw [analyzePosePosture_of_gate st f now hvis,
    handlePosturePersistence_of_poor _ now hpoor]
  set st1 := { st with currentNeckAngle := frameNeckAngle f } with hst1
  cases hs : st.poorPostureStartTime with
  | none =>
      have hs1 : st1.poorPostureStartTime = none := by rw [hst1]; exact hs
      obtain ⟨h1, h2, h3, h4, h5⟩ := poorPostureStep_state_none st1 now hs1
      refine ⟨h3, fun _ => ⟨h1, h2⟩, ?_, ?_, ?_⟩
      · intro t0 ht0
        exact Option.noConfusion ht0
      · rw [h4, h2]
      · rw [h5, h2]
  | some t0 =>
      have hs1 : st1.poorPostureStartTime = some t0 := by rw [hst1]; exact hs
      obtain ⟨h1, h2, h3, h4, h5⟩ := poorPostureStep_state_some st1 now t0 hs1
      refine ⟨h3, ?_, ?_, ?_, ?_⟩
      · intro hn
        exact Option.noConfusion hn
      · intro t1 ht1
        obtain rfl : t0 = t1 := Option.some.inj ht1
        exact ⟨h1, h2⟩
      · rw [h4, h2]
      · rw [h5, h2]

/-- Witness for c2: a run over framePoorFlat, once from a fresh state at
time 5 and once from a streak that started at time 0, read at time 4000. -/
theorem c2_dwell_accumulation_witness :
    hasGoodVisibility framePoorFlat = true ∧
    frameNeckAngle framePoorFlat < postureThresholds.warning ∧
    ((analyzePosePosture initialState framePoorFlat 5).1.poorPostureStartTime = some 5 ∧
      (analyzePosePosture initialState framePoorFlat 5).1.poorPostureDuration = 0) ∧
    ((analyzePosePosture stateMidRun framePoorFlat 4000).1.poorPostureStartTime = some 0 ∧
      (analyzePosePosture stateMidRun framePoorFlat 4000).1.poorPostureDuration = 4000 - 0) ∧
    (analyzePosePosture stateMidRun framePoorFlat 4000).1.timerProgress =
      min (((analyzePosePosture stateMidRun framePoorFlat 4000).1.poorPostureDuration : ℚ) /
        (warningDurationThreshold : ℚ)) 1 := by
  have hpoor : frameNeckAngle framePoorFlat < postureThresholds.warning := by
    rw [angle_framePoorFlat]
    norm_num [postureThresholds]
  refine ⟨vis_framePoorFlat, hpoor, ?_, ?_, ?_⟩
  · exact (c2_dwell_accumulation initialState framePoorFlat 5 vis_framePoorFlat hpoor).2.1 rfl
  · exact (c2_dwell_accumulation stateMidRun framePoorFlat 4000 vis_framePoorFlat hpoor).2.2.1 0 rfl
  · exact (c2_dwell_accumulation stateMidRun framePoorFlat 4000 vis_framePoorFlat hpoor).2.2.2.2

/-- C3: within a poor streak, a poor frame whose elapsed time reaches the
10000 ms threshold carries the alert title; the alert-raise signal fires
exactly when no alert was shown before the frame (so the first such frame
raises it once and later ones, with the alert still shown, raise nothing),
and afterwards the alert is shown. -/
theorem c3_alert_once (st : PostureState) (f : List (Option Keypoint)) (now t0 : ℤ)
    (hvis : hasGoodVisibility f = true)
    (hpoor : frameNeckAngle f < postureThresholds.warning)
    (hstart : st.poorPostureStartTime = some t0)
    (hdur : now - t0 ≥ warningDurationThreshold) :
    (analyzePosePosture st f now).2.title = "Poor Posture Alert!" ∧
    (analyzePosePosture st f now).1.alertShown = true ∧
    (analyzePosePosture st f now).2.alertRaised = !st.alertShown := by
  rw [analyzePosePosture_of_gate st f now hvis,
    handlePosturePersistence_of_poor _ now hpoor]
  set st1 := { st with currentNeckAngle := frameNeckAngle f } with hst1
  have hs1 : st1.poorPostureStartTime = some t0 := by rw [hst1]; exact hstart
  rw [poorPostureStep_of_some st1 now t0 hs1]
  unfold poorPostureEmit
  split
  · refine ⟨rfl, ?_, ?_⟩
    · rw [updatePostureTimer_alertShown, showPostureAlert_fst_alertShown]
    · rw [showPostureAlert_snd]
  · rename_i hcond
    exact absurd hdur hcond

/-- Witness for c3: the threshold frame from a streak started at 0 with no
alert shown raises the signal; the same frame from the alerting state raises
none. -/
theorem c3_alert_once_witness :
    hasGoodVisibility framePoorFlat = true ∧
    frameNeckAngle framePoorFlat < postureThresholds.warning ∧
    ((analyzePosePosture stateMidRun framePoorFlat 10000).2.title = "Poor Posture Alert!" ∧
      (analyzePosePosture stateMidRun framePoorFlat 10000).2.alertRaised = true) ∧
    ((analyzePosePosture stateAlerting framePoorFlat 11000).2.title = "Poor Posture Alert!" ∧
      (analyzePosePosture stateAlerting framePoorFlat 11000).2.alertRaised = false) := by
  have hpoor : frameNeckAngle framePoorFlat < postureThresholds.warning := by
    rw [angle_framePoorFlat]
    norm_num [postureThresholds]
  obtain ⟨t1, _, r1⟩ := c3_alert_once stateMidRun framePoorFlat 10000 0
    vis_framePoorFlat hpoor rfl (by decide)
  obtain ⟨t2, _, r2⟩ := c3_alert_once stateAlerting framePoorFlat 11000 0
    vis_framePoorFlat hpoor rfl (by decide)
  exact ⟨vis_framePoorFlat, hpoor, ⟨t1, r1⟩, ⟨t2, r2⟩⟩

/-- C4: a frame classified good or fair (angle at least the warning
threshold, gate passed) resets the dwell state whatever came before:
streak start cleared, duration zeroed, timer hidden, alert hidden and the
pending auto-hide task cancelled (under the run invariant that a pending
task implies a shown alert). -/
theorem c4_recovery_reset (st : PostureState) (f : List (Option Keypoint)) (now : ℤ)
    (hvis : hasGoodVisibility f = true)
    (hgf : frameNeckAngle f ≥ postureThresholds.warning)
    (hinv : st.alertTimeoutPending = true → st.alertShown = true) :
    ((analyzePosePosture st f now).2.quality = "good" ∨
      (analyzePosePosture st f now).2.quality = "fair") ∧
    (analyzePosePosture st f now).1.poorPostureStartTime = none ∧
    (analyzePosePosture st f now).1.poorPostureDuration = 0 ∧
    (analyzePosePosture st f now).1.timerVisible = false ∧
    (analyzePosePosture st f now).1.alertShown = false ∧
    (analyzePosePosture st f now).1.alertTimeoutPending = false := by
  rw [analyzePosePosture_of_gate st f now hvis]
  by_cases hg : frameNeckAngle f ≥ postureThresholds.good
  · unfold handlePosturePersistence
    rw [if_pos hg]
    exact ⟨Or.inl rfl, by simp, by simp, by simp, by simp,
      resetPoorPostureTimer_pending _ hinv⟩
  · unfold handlePosturePersistence
    rw [if_neg hg, if_pos hgf]
    exact ⟨Or.inr rfl, by simp, by simp, by simp, by simp,
      resetPoorPostureTimer_pending _ hinv⟩

/-- Witness for c4: a good vertical frame arriving while the alert is shown,
mid-streak, clears every piece of the dwell state. -/
theorem c4_recovery_reset_witness :
    hasGoodVisibility frameGoodVertical = true ∧
    frameNeckAngle frameGoodVertical ≥ postureThresholds.warning ∧
    (((analyzePosePosture stateAlerting frameGoodVertical 11000).2.quality = "good" ∨
        (analyzePosePosture stateAlerting frameGoodVertical 11000).2.quality = "fair") ∧
      (analyzePosePosture stateAlerting frameGoodVertical 11000).1.poorPostureStartTime = none ∧
      (analyzePosePosture stateAlerting frameGoodVertical 11000).1.poorPostureDuration = 0 ∧
      (analyzePosePosture stateAlerting frameGoodVertical 11000).1.timerVisible = false ∧
      (analyzePosePosture stateAlerting frameGoodVertical 11000).1.alertShown = false ∧
      (analyzePosePosture stateAlerting frameGoodVertical 11000).1.alertTimeoutPending = false) := by
  have hgf : frameNeckAngle frameGoodVertical ≥ postureThresholds.warning := by
    rw [angle_frameGoodVertical]
    norm_num [postureThresholds]
  exact ⟨vis_frameGoodVertical, hgf,
    c4_recovery_reset stateAlerting frameGoodVertical 11000 vis_frameGoodVertical hgf
      (fun _ => rfl)⟩

/-- C7 (amended): with the gate passed, equal averaged x coordinates yield a
neck angle of 180 provided the averaged ear is not below the averaged
shoulder (screen y of the ear at most that of the shoulder); the ear-below
case yields 0 instead (see the counterexample). -/
theorem c7_vertical_angle (st : PostureState) (f : List (Option Keypoint)) (now : ℤ)
    (hvis : hasGoodVisibility f = true)
    (hx : (avgEarOf f).1 = (avgShoulderOf f).1)
    (hy : (avgEarOf f).2 ≤ (avgShoulderOf f).2) :
    (analyzePosePosture st f now).1.currentNeckAngle = 180 := by
  rw [analyzePosePosture_of_gate st f now hvis, handlePosturePersistence_angle]
  show frameNeckAngle f = 180
  exact neckAngleFrom_vertical _ _ hx hy

/-- Witness for c7 on the vertical frame. -/
theorem c7_vertical_angle_witness :
    hasGoodVisibility frameGoodVertical = true ∧
    (avgEarOf frameGoodVertical).1 = (avgShoulderOf frameGoodVertical).1 ∧
    (avgEarOf frameGoodVertical).2 ≤ (avgShoulderOf frameGoodVertical).2 ∧
    (analyzePosePosture initialState frameGoodVertical 0).1.currentNeckAngle = 180 := by
  have hx : (avgEarOf frameGoodVertical).1 = (avgShoulderOf frameGoodVertical).1 := by
    unfold frameGoodVertical
    rw [avgEarOf_earShoulderFrame, avgShoulderOf_earShoulderFrame]
  have hy : (avgEarOf frameGoodVertical).2 ≤ (avgShoulderOf frameGoodVertical).2 := by
    unfold frameGoodVertical
    rw [avgEarOf_earShoulderFrame, avgShoulderOf_earShoulderFrame]
    norm_num
  exact ⟨vis_frameGoodVertical, hx, hy,
    c7_vertical_angle initialState frameGoodVertical 0 vis_frameGoodVertical hx hy⟩

/-- Counterexample for C7 as stated: frameEarBelow passes the gate and has
equal averaged x coordinates, yet the computed angle is 0, not 180, because
the averaged ear lies below the averaged shoulder and the raw two-argument
arctangent then returns half a turn. -/
theorem c7_vertical_cex :
    hasGoodVisibility frameEarBelow = true ∧
    (avgEarOf frameEarBelow).1 = (avgShoulderOf frameEarBelow).1 ∧
    (analyzePosePosture initialState frameEarBelow 0).1.currentNeckAngle = 0 ∧
    ((0 : ℝ) ≠ 180) := by
  refine ⟨vis_frameEarBelow, ?_, ?_, by norm_num⟩
  · unfold frameEarBelow
    rw [avgEarOf_earShoulderFrame, avgShoulderOf_earShoulderFrame]
  · rw [analyzePosePosture_of_gate _ _ _ vis_frameEarBelow, handlePosturePersistence_angle]
    show frameNeckAngle frameEarBelow = 0
    exact angle_frameEarBelow

/-- C8 (amended): with the averaged ear strictly above the averaged shoulder
(positive vertical offset in screen coordinates), a strictly larger
horizontal ear offset gives a strictly smaller neck angle.  With zero or
negative vertical offset the claim fails (see the counterexample). -/
theorem c8_horizontal_monotonicity (ex1 ex2 sx ey sy : ℝ)
    (hy : ey < sy) (hd : |ex1 - sx| < |ex2 - sx|) :
    neckAngleFrom (ex2, ey) (sx, sy) < neckAngleFrom (ex1, ey) (sx, sy) := by
  rw [neckAngleFrom_of_dy_pos (ex2, ey) (sx, sy) hy,
    neckAngleFrom_of_dy_pos (ex1, ey) (sx, sy) hy]
  dsimp only
  have hdy : (0 : ℝ) < sy - ey := by linarith
  have harc : Real.arctan (|ex1 - sx| / (sy - ey)) < Real.arctan (|ex2 - sx| / (sy - ey)) :=
    Real.arctan_strictMono ((div_lt_div_iff_of_pos_right hdy).mpr hd)
  have hc : (0 : ℝ) < 180 / Real.pi := by positivity
  have hmul := mul_lt_mul_of_pos_right harc hc
  linarith

/-- Witness for c8 at concrete coordinates. -/
theorem c8_horizontal_monotonicity_witness :
    ((2 : ℝ)/5) < 1/2 ∧ |(1 : ℝ)/2 - 1/2| < |(3 : ℝ)/5 - 1/2| ∧
    neckAngleFrom (3/5, 2/5) (1/2, 1/2) < neckAngleFrom (1/2, 2/5) (1/2, 1/2) :=
  ⟨by norm_num, by rw [abs_of_nonneg, abs_of_nonneg] <;> norm_num,
    c8_horizontal_monotonicity (1/2) (3/5) (1/2) (2/5) (1/2) (by norm_num)
      (by rw [abs_of_nonneg, abs_of_nonneg] <;> norm_num)⟩

/-- Counterexample for C8 as stated: the two level frames share the averaged
shoulder and the vertical ear offset, the horizontal offset grows from one
tenth to one fifth, and both neck angles equal 90, inside the open interval
(0, 180), so the angle does not strictly decrease. -/
theorem c8_monotonicity_cex :
    hasGoodVisibility frameFlatNear = true ∧
    hasGoodVisibility frameFlatFar = true ∧
    avgShoulderOf frameFlatNear = avgShoulderOf frameFlatFar ∧
    (avgEarOf frameFlatNear).2 = (avgEarOf frameFlatFar).2 ∧
    |(avgEarOf frameFlatNear).1 - (avgShoulderOf frameFlatNear).1| <
      |(avgEarOf frameFlatFar).1 - (avgShoulderOf frameFlatFar).1| ∧
    frameNeckAngle frameFlatNear = 90 ∧
    frameNeckAngle frameFlatFar = 90 ∧
    ((0 : ℝ) < 90 ∧ (90 : ℝ) < 180) := by
  refine ⟨vis_frameFlatNear, vis_frameFlatFar, ?_, ?_, ?_,
    angle_frameFlatNear, angle_frameFlatFar, by norm_num⟩
  · unfold frameFlatNear frameFlatFar
    rw [avgShoulderOf_earShoulderFrame, avgShoulderOf_earShoulderFrame]
  · unfold frameFlatNear frameFlatFar
    rw [avgEarOf_earShoulderFrame, avgEarOf_earShoulderFrame]
  · unfold frameFlatNear frameFlatFar
    rw [avgEarOf_earShoulderFrame, avgEarOf_earShoulderFrame,
      avgShoulderOf_earShoulderFrame, avgShoulderOf_earShoulderFrame]
    dsimp only
    rw [abs_of_nonneg, abs_of_nonneg] <;> norm_num

/-- C10: a frame whose four required landmarks are present, each either
reporting visibility exactly 0 or having effective visibility above 0.6,
passes the visibility gate (visibility 0 is replaced by 1 by the truthiness
default, exactly like an absent visibility), so the angle is recomputed and
the frame is classified rather than reported unknown. -/
theorem c10_zero_visibility_passes (st : PostureState) (f : List (Option Keypoint)) (now : ℤ)
    (kle kre kls krs : Keypoint)
    (h7 : getLandmark f 7 = some kle) (h8 : getLandmark f 8 = some kre)
    (h11 : getLandmark f 11 = some kls) (h12 : getLandmark f 12 = some krs)
    (hv : ∀ k ∈ [kle, kre, kls, krs], k.visibility = some 0 ∨ effVisibility k > 6/10) :
    (∀ k : Keypoint, k.visibility = some 0 → effVisibility k = 1) ∧
    hasGoodVisibility f = true ∧
    (analyzePosePosture st f now).2.quality ≠ "unknown" ∧
    (analyzePosePosture st f now).1.currentNeckAngle = frameNeckAngle f := by
  have hgate : hasGoodVisibility f = true := by
    unfold hasGoodVisibility
    rw [h7, h8, h11, h12,
      visOK_true_of kle (hv kle (by simp)), visOK_true_of kre (hv kre (by simp)),
      visOK_true_of kls (hv kls (by simp)), visOK_true_of krs (hv krs (by simp))]
    rfl
  refine ⟨?_, hgate, ?_, ?_⟩
  · intro k hk
    unfold effVisibility
    rw [hk]
    simp
  · rw [analyzePosePosture_of_gate st f now hgate]
    rcases handlePosturePersistence_quality
        { st with currentNeckAngle := frameNeckAngle f } now with h | h | h <;>
      rw [h] <;> simp
  · rw [analyzePosePosture_of_gate st f now hgate, handlePosturePersistence_angle]

/-- Witness for c10 on frameZeroVis, whose left ear reports visibility 0. -/
theorem c10_zero_visibility_passes_witness :
    hasGoodVisibility frameZeroVis = true ∧
    (analyzePosePosture initialState frameZeroVis 0).2.quality ≠ "unknown" ∧
    (analyzePosePosture initialState frameZeroVis 0).1.currentNeckAngle =
      frameNeckAngle frameZeroVis := by
  have h := c10_zero_visibility_passes initialState frameZeroVis 0
    ⟨1/2, 3/10, some 0⟩ ⟨1/2, 3/10, some 1⟩ ⟨1/2, 3/5, some 1⟩ ⟨1/2, 3/5, some 1⟩
    rfl rfl rfl rfl
    (by
      intro k hk
      simp only [List.mem_cons, List.not_mem_nil, or_false, List.mem_singleton] at hk
      rcases hk with rfl | rfl | rfl | rfl
      · exact Or.inl rfl
      · right; norm_num
      · right; norm_num
      · right; norm_num)
  exact ⟨h.2.1, h.2.2.1, h.2.2.2⟩

end Situp
